import Mathlib

/-!
Verification development for a DICOM SCP (service class provider) server:
a network receiver that stores incoming DICOM objects to a file hierarchy
and records patient/study/series/instance metadata in a relational store.

Shallow embedding of the Rust sources:
  * `storage.rs`  — storage path resolver and filename sanitization
  * `database.rs` — hierarchical metadata upsert engine
  * `scp.rs`      — per-association message dispatch loop

Modelling conventions:
  * A parsed DICOM object (`InMemDicomObject`) is a finite association list
    from tag name to the element's string value, together with a separate
    association list for integer-valued reads and the transfer encoding
    identifier from the file meta group.  `element_by_name(..).ok()` followed
    by a successful `to_str()` is modelled as association-list lookup.
  * Database tables are lists of row structures; `INSERT` appends,
    `SELECT ... LIMIT 1` is `List.find?`, `UPDATE` is `List.map`.
  * `Uuid::new_v4()` (random surrogate ids and generated-UID seeds) is
    modelled by threading a counter: each draw returns the counter value and
    increments it.  `NOW()` is a `now : Nat` parameter.
  * Fallible database round trips: the embedding models the success path of
    each query; pool/connection errors are external to this core.
-/

namespace DicomScp

/-- A parsed DICOM object: tag name → string value (for elements whose
`to_str()` succeeds), tag name → integer value (for elements whose
`to_int::<i32>()` succeeds), and the transfer encoding identifier reported
by `obj.meta().transfer_syntax()`. -/
structure DicomObject where
  elements : List (String × String)
  intElements : List (String × Int)
  transferEncoding : String
deriving DecidableEq, Repr

/-- Embeds Rust `char::is_whitespace`: the Unicode `White_Space` property,
a fixed finite set of code points. -/
def rust_is_whitespace (c : Char) : Bool :=
  let n := c.toNat
  decide ((9 ≤ n ∧ n ≤ 13) ∨ n = 32 ∨ n = 0x85 ∨ n = 0xA0 ∨ n = 0x1680 ∨
    (0x2000 ≤ n ∧ n ≤ 0x200A) ∨ n = 0x2028 ∨ n = 0x2029 ∨ n = 0x202F ∨
    n = 0x205F ∨ n = 0x3000)

/-- Embeds Rust `str::trim`: remove leading and trailing whitespace. -/
def rust_trim (s : String) : String :=
  String.mk
    (((s.data.dropWhile rust_is_whitespace).reverse.dropWhile
        rust_is_whitespace).reverse)

/-- Embeds `get_string_value` (database.rs:259-265): look up the element by
tag name, convert to string, trim whitespace, and drop the result when the
trimmed string is empty. -/
def get_string_value (obj : DicomObject) (tag : String) : Option String :=
  ((obj.elements.lookup tag).map rust_trim).filter (fun s => !(s == ""))

/-- Embeds `get_integer_value` (database.rs:267-271). -/
def get_integer_value (obj : DicomObject) (tag : String) : Option Int :=
  obj.intElements.lookup tag

/-- Embeds `generate_uid` (database.rs:273-275):
`format!("2.25.{}", Uuid::new_v4().as_u128())`.  The random 128-bit draw is
modelled by the seed `n` supplied by the threaded counter. -/
def generate_uid (n : Nat) : String :=
  "2.25." ++ toString n

/-- Embeds Rust `char::is_alphanumeric` (Unicode `Alphabetic` or general
category N*), the classifier used by `sanitize_filename` (storage.rs:83).
The embedding is exact for code points below 0x100 (ASCII alphanumerics and
the Latin-1 letters/numerics `ª ² ³ µ ¹ º ¼ ½ ¾ À–Ö Ø–ö ø–ÿ`); the theorems
below quantify only over strings within that range, so the `false` returned
for higher code points is never exercised. -/
def rust_is_alphanumeric (c : Char) : Bool :=
  let n := c.toNat
  decide ((48 ≤ n ∧ n ≤ 57) ∨ (65 ≤ n ∧ n ≤ 90) ∨ (97 ≤ n ∧ n ≤ 122) ∨
    n = 0xAA ∨ n = 0xB2 ∨ n = 0xB3 ∨ n = 0xB5 ∨ n = 0xB9 ∨ n = 0xBA ∨
    (0xBC ≤ n ∧ n ≤ 0xBE) ∨ (0xC0 ≤ n ∧ n ≤ 0xD6) ∨ (0xD8 ≤ n ∧ n ≤ 0xF6) ∨
    (0xF8 ≤ n ∧ n ≤ 0xFF))

/-- Embeds `sanitize_filename` (storage.rs:80-90): keep alphanumerics and
`- _ .`, replace every other character with `_`. -/
def sanitize_filename (s : String) : String :=
  String.mk (s.data.map (fun c =>
    if rust_is_alphanumeric c || c == '-' || c == '_' || c == '.' then c else '_'))

/-- The character class `[A-Za-z0-9._-]` named by the specification's
sanitization guarantee (the yardstick the claim is measured against). -/
def ascii_allowed (c : Char) : Bool :=
  let n := c.toNat
  decide ((48 ≤ n ∧ n ≤ 57) ∨ (65 ≤ n ∧ n ≤ 90) ∨ (97 ≤ n ∧ n ≤ 122) ∨
    n = 46 ∨ n = 95 ∨ n = 45)

/-- Embeds `StorageConfig` (config.rs:27-31). -/
structure StorageConfig where
  base_path : String
  organize_by_patient : Bool
  organize_by_study : Bool
deriving DecidableEq, Repr

/-- Raw element access as used by `generate_file_path` (storage.rs:25-56):
`element_by_name(..)` + `to_str()`, with no trimming or empty-filtering
(unlike `get_string_value` in database.rs). -/
def raw_element (obj : DicomObject) (tag : String) : Option String :=
  obj.elements.lookup tag

/-- Embeds `generate_file_path` (storage.rs:19-59) as the list of path
segments pushed onto the base path.  `fs::create_dir_all` is an external
filesystem effect; its success is the `mkdirOk` oracle, and the function
returns `none` exactly when it fails (the only `?` in the source).  Note the
filename push happens after directory creation in the source, but a
directory-creation failure returns before the filename is pushed. -/
def generate_file_path (cfg : StorageConfig) (obj : DicomObject)
    (mkdirOk : Bool) : Option (List String) :=
  let path := [cfg.base_path]
  let path := if cfg.organize_by_patient then
      match raw_element obj "PatientID" with
      | some pid => path ++ [sanitize_filename pid]
      | none => path
    else path
  let path := if cfg.organize_by_study then
      match raw_element obj "StudyInstanceUID" with
      | some su => path ++ [sanitize_filename su]
      | none => path
    else path
  let path := match raw_element obj "SeriesInstanceUID" with
      | some se => path ++ [sanitize_filename se]
      | none => path
  if mkdirOk then
    some (match raw_element obj "SOPInstanceUID" with
      | some sop => path ++ [sanitize_filename sop ++ ".dcm"]
      | none => path)
  else none

/-- Embeds `store_dicom` (storage.rs:62-70): resolve the path, then write
the object; the file write is an external effect whose success is the
`writeOk` oracle. -/
def store_dicom (cfg : StorageConfig) (obj : DicomObject)
    (mkdirOk writeOk : Bool) : Option (List String) :=
  match generate_file_path cfg obj mkdirOk with
  | some p => if writeOk then some p else none
  | none => none

/-- The optional patient path segment: what `generate_file_path` pushes for
the patient level when `organize_by_patient` is enabled. -/
def patient_segs (obj : DicomObject) : List String :=
  match raw_element obj "PatientID" with
  | some pid => [sanitize_filename pid]
  | none => []

/-- The path segments `generate_file_path` pushes after the patient level:
the optional study segment (when `organize_by_study` is enabled), the
optional series segment, and the optional `<sop>.dcm` filename. -/
def post_patient_segs (cfg : StorageConfig) (obj : DicomObject) : List String :=
  (if cfg.organize_by_study then
      match raw_element obj "StudyInstanceUID" with
      | some su => [sanitize_filename su]
      | none => []
    else []) ++
  (match raw_element obj "SeriesInstanceUID" with
    | some se => [sanitize_filename se]
    | none => []) ++
  (match raw_element obj "SOPInstanceUID" with
    | some sop => [sanitize_filename sop ++ ".dcm"]
    | none => [])

/-- Decides whether a string ends with the fixed file extension `".dcm"`
(the shape every filename of the form `<sanitized uid>.dcm` has). -/
def ends_in_dcm (s : String) : Bool :=
  decide (4 ≤ s.data.length) &&
    (s.data.drop (s.data.length - 4) == ['.', 'd', 'c', 'm'])

/-- A row of `worklist_patient` (columns bound in database.rs:101-113). -/
structure PatientRow where
  id : Nat
  patient_id : String
  patient_name : String
  patient_birth_date : Option String
  patient_sex : Option String
  created_at : Nat
  updated_at : Nat
deriving DecidableEq, Repr

/-- A row of `worklist_study` (columns bound in database.rs:141-159). -/
structure StudyRow where
  id : Nat
  patient_id : Nat
  study_instance_uid : String
  study_id : Option String
  study_date : Option String
  study_time : Option String
  study_description : Option String
  accession_number : Option String
  modality : Option String
  created_at : Nat
  updated_at : Nat
  status : String
deriving DecidableEq, Repr

/-- A row of `worklist_series` (columns bound in database.rs:185-201). -/
structure SeriesRow where
  id : Nat
  study_id : Nat
  series_instance_uid : String
  series_number : Option Int
  series_description : Option String
  modality : Option String
  body_part_examined : Option String
  created_at : Nat
  updated_at : Nat
deriving DecidableEq, Repr

/-- A row of `worklist_dicomimage` (columns bound in database.rs:220-242). -/
structure InstanceRow where
  id : Nat
  series_id : Nat
  sop_instance_uid : String
  sop_class_uid : String
  instance_number : Option Int
  dicom_file : String
  file_size : Int
  transfer_encoding_uid : String
  img_rows : Option Int
  img_columns : Option Int
  bits_allocated : Option Int
  created_at : Nat
  updated_at : Nat
deriving DecidableEq, Repr

/-- The relational store: the four tables the upsert engine touches. -/
structure DbState where
  patients : List PatientRow
  studies : List StudyRow
  series : List SeriesRow
  instances : List InstanceRow
deriving DecidableEq, Repr

def DbState.empty : DbState := ⟨[], [], [], []⟩

/-- Result of one get-or-create database operation: the returned surrogate
id, the store after the operation, and the counter after any `Uuid::new_v4`
draws. -/
structure OpRes where
  id : Nat
  st : DbState
  ctr : Nat
deriving DecidableEq, Repr

/-- Embeds `get_or_create_patient` (database.rs:80-116): `SELECT id FROM
worklist_patient WHERE patient_id = $1 LIMIT 1`; on a hit return the found
id, otherwise insert a new row with a fresh surrogate id. -/
def get_or_create_patient (st : DbState) (ctr now : Nat)
    (patient_id patient_name : String)
    (birth_date sex : Option String) : OpRes :=
  match st.patients.find? (fun r => r.patient_id == patient_id) with
  | some r => ⟨r.id, st, ctr⟩
  | none =>
    ⟨ctr, { st with patients := st.patients ++
        [⟨ctr, patient_id, patient_name, birth_date, sex, now, now⟩] }, ctr + 1⟩

/-- Embeds `get_or_create_study` (database.rs:118-162): lookup is by
`study_instance_uid` alone; an insert records the fixed status marker
`'completed'`. -/
def get_or_create_study (st : DbState) (ctr now : Nat) (patient_id : Nat)
    (study_uid : String)
    (study_id study_date study_time description accession modality :
      Option String) : OpRes :=
  match st.studies.find? (fun r => r.study_instance_uid == study_uid) with
  | some r => ⟨r.id, st, ctr⟩
  | none =>
    ⟨ctr, { st with studies := st.studies ++
        [⟨ctr, patient_id, study_uid, study_id, study_date, study_time,
          description, accession, modality, now, now, "completed"⟩] }, ctr + 1⟩

/-- Embeds `get_or_create_series` (database.rs:164-204). -/
def get_or_create_series (st : DbState) (ctr now : Nat) (study_id : Nat)
    (series_uid : String) (series_number : Option Int)
    (description modality body_part : Option String) : OpRes :=
  match st.series.find? (fun r => r.series_instance_uid == series_uid) with
  | some r => ⟨r.id, st, ctr⟩
  | none =>
    ⟨ctr, { st with series := st.series ++
        [⟨ctr, study_id, series_uid, series_number, description, modality,
          body_part, now, now⟩] }, ctr + 1⟩

/-- Embeds `create_instance` (database.rs:206-245): the surrogate id is
drawn before the insert, and the `INSERT ... ON CONFLICT (sop_instance_uid)
DO NOTHING` leaves the table unchanged when a row with the same SOP
instance UID already exists; the function returns `Ok(id)` either way. -/
def create_instance (st : DbState) (ctr now : Nat) (series_id : Nat)
    (sop_uid sop_class_uid : String) (instance_number : Option Int)
    (file_path : String) (file_size : Int) (transfer_encoding : String)
    (img_rows img_columns bits_allocated : Option Int) : OpRes :=
  let id := ctr
  if st.instances.any (fun r => r.sop_instance_uid == sop_uid) then
    ⟨id, st, ctr + 1⟩
  else
    ⟨id, { st with instances := st.instances ++
        [⟨id, series_id, sop_uid, sop_class_uid, instance_number, file_path,
          file_size, transfer_encoding, img_rows, img_columns, bits_allocated,
          now, now⟩] }, ctr + 1⟩

/-- Embeds `increment_series_instances` (database.rs:247-256):
`UPDATE worklist_series SET updated_at = NOW() WHERE id = $1`. -/
def increment_series_instances (st : DbState) (series_id now : Nat) : DbState :=
  { st with series := st.series.map (fun r =>
      if r.id == series_id then { r with updated_at := now } else r) }

/-- The identifying fields extracted at the top of `store_dicom_metadata`
(database.rs:23-28), with the fallback policy applied in source order:
missing patient id and patient name fall back to `"UNKNOWN"`, missing
study/series/SOP instance UIDs to freshly generated UIDs (consuming the
counter), and a missing SOP class UID to the empty string. -/
structure ExtractedMeta where
  patient_id : String
  patient_name : String
  study_uid : String
  series_uid : String
  sop_uid : String
  sop_class : String
  ctr : Nat
deriving DecidableEq, Repr

def extract_meta (obj : DicomObject) (ctr : Nat) : ExtractedMeta :=
  let patient_id := (get_string_value obj "PatientID").getD "UNKNOWN"
  let patient_name := (get_string_value obj "PatientName").getD "UNKNOWN"
  let c1 := match get_string_value obj "StudyInstanceUID" with
    | some _ => ctr
    | none => ctr + 1
  let study_uid := match get_string_value obj "StudyInstanceUID" with
    | some s => s
    | none => generate_uid ctr
  let c2 := match get_string_value obj "SeriesInstanceUID" with
    | some _ => c1
    | none => c1 + 1
  let series_uid := match get_string_value obj "SeriesInstanceUID" with
    | some s => s
    | none => generate_uid c1
  let c3 := match get_string_value obj "SOPInstanceUID" with
    | some _ => c2
    | none => c2 + 1
  let sop_uid := match get_string_value obj "SOPInstanceUID" with
    | some s => s
    | none => generate_uid c2
  let sop_class := (get_string_value obj "SOPClassUID").getD ""
  ⟨patient_id, patient_name, study_uid, series_uid, sop_uid, sop_class, c3⟩

/-- Embeds `store_dicom_metadata` (database.rs:16-78): extract the
identifying fields, get-or-create the Patient, Study and Series rows in
order, insert the Instance row (conflict as no-op), then refresh the Series
row's `updated_at` timestamp. -/
def store_dicom_metadata (st : DbState) (ctr now : Nat) (obj : DicomObject)
    (file_path : String) (file_size : Int) : DbState × Nat :=
  let m := extract_meta obj ctr
  let rp := get_or_create_patient st m.ctr now m.patient_id m.patient_name
    (get_string_value obj "PatientBirthDate") (get_string_value obj "PatientSex")
  let rs := get_or_create_study rp.st rp.ctr now rp.id m.study_uid
    (get_string_value obj "StudyID") (get_string_value obj "StudyDate")
    (get_string_value obj "StudyTime") (get_string_value obj "StudyDescription")
    (get_string_value obj "AccessionNumber") (get_string_value obj "Modality")
  let rse := get_or_create_series rs.st rs.ctr now rs.id m.series_uid
    (get_integer_value obj "SeriesNumber")
    (get_string_value obj "SeriesDescription") (get_string_value obj "Modality")
    (get_string_value obj "BodyPartExamined")
  let ri := create_instance rse.st rse.ctr now rse.id m.sop_uid m.sop_class
    (get_integer_value obj "InstanceNumber") file_path file_size
    obj.transferEncoding (get_integer_value obj "Rows")
    (get_integer_value obj "Columns") (get_integer_value obj "BitsAllocated")
  (increment_series_instances ri.st rse.id now, ri.ctr)

/-- Number of Patient rows carrying a given natural key. -/
def patient_count (st : DbState) (pid : String) : Nat :=
  st.patients.countP (fun r => r.patient_id == pid)

/-- Number of Study rows carrying a given natural key. -/
def study_count (st : DbState) (uid : String) : Nat :=
  st.studies.countP (fun r => r.study_instance_uid == uid)

/-- Number of Series rows carrying a given natural key. -/
def series_count (st : DbState) (uid : String) : Nat :=
  st.series.countP (fun r => r.series_instance_uid == uid)

/-- Number of Instance rows carrying a given natural key. -/
def instance_count (st : DbState) (uid : String) : Nat :=
  st.instances.countP (fun r => r.sop_instance_uid == uid)

/-- The value-type discriminator of a P-DATA value (scp.rs:169). -/
inductive ValType
  | command
  | data
deriving DecidableEq, Repr

/-- One P-DATA value: its discriminator and raw dataset bytes. -/
structure PDataVal where
  value_type : ValType
  data : List Nat
deriving DecidableEq, Repr

/-- External-world outcomes attached to one P-DATA value: whether directory
creation succeeds, whether the file write succeeds, and the size reported
for the written file (scp.rs:186 applies `unwrap_or(0)`). -/
structure DataEnv where
  mkdirOk : Bool
  writeOk : Bool
  fileSize : Int
deriving DecidableEq, Repr

/-- The PDUs distinguished by the dispatch loop (scp.rs:122-148), plus a
receive error (scp.rs:150-153).  Each P-DATA value carries its
external-world outcome. -/
inductive RecvEvent
  | pData (vals : List (PDataVal × DataEnv))
  | releaseRQ
  | abortRQ
  | otherPdu
  | recvError
deriving DecidableEq, Repr

/-- PDUs the loop sends back (the only send is the release acknowledgment,
scp.rs:138). -/
inductive SentPdu
  | releaseRP
deriving DecidableEq, Repr

/-- Session state after a run of the dispatch loop: `closed` once the loop
breaks (release, abort or receive error), `opened` while it is still
waiting for the next message. -/
inductive SessState
  | opened
  | closed
deriving DecidableEq, Repr

/-- Joins path segments with `/` as `PathBuf::to_str` renders the path that
is handed to `store_dicom_metadata` (scp.rs:192, `unwrap_or("")` cannot
fire in the model, where segments are valid strings). -/
def path_to_string (p : List String) : String :=
  String.intercalate "/" p

/-- Embeds `handle_pdata` (scp.rs:161-216) for one P-DATA value: commands
are only logged; a data value is parsed (the external codec is the `parse`
oracle), a parse failure is logged and skipped, a storage failure is logged
and skipped (no metadata recorded), and only a successful file store
reaches `store_dicom_metadata`.  The Rust function returns `Ok(())` on all
of these paths; a metadata error is also only logged, so the model returns
the (possibly updated) store and counter. -/
def handle_pdata (parse : List Nat → Option DicomObject) (cfg : StorageConfig)
    (v : PDataVal) (env : DataEnv) (st : DbState) (ctr now : Nat) :
    DbState × Nat :=
  match v.value_type with
  | ValType.command => (st, ctr)
  | ValType.data =>
    match parse v.data with
    | none => (st, ctr)
    | some obj =>
      match store_dicom cfg obj env.mkdirOk env.writeOk with
      | none => (st, ctr)
      | some p =>
        store_dicom_metadata st ctr now obj (path_to_string p) env.fileSize

/-- The inner `for pdata_value in data` loop (scp.rs:125-134): values are
handled in order, and an error from `handle_pdata` is logged without
stopping the loop. -/
def handle_pdata_list (parse : List Nat → Option DicomObject)
    (cfg : StorageConfig) (vals : List (PDataVal × DataEnv)) (st : DbState)
    (ctr now : Nat) : DbState × Nat :=
  match vals with
  | [] => (st, ctr)
  | (v, env) :: rest =>
    let r := handle_pdata parse cfg v env st ctr now
    handle_pdata_list parse cfg rest r.1 r.2 now

/-- Embeds the receive loop of `handle_association` (scp.rs:119-155) over a
finite stream of receive events: P-DATA is dispatched and the loop
continues; a release request sends `ReleaseRP` and breaks; an abort breaks;
other PDUs are ignored; a receive error breaks.  The result is the final
store, the PDUs sent, and the terminal session state. -/
def run_association (parse : List Nat → Option DicomObject)
    (cfg : StorageConfig) :
    List RecvEvent → DbState → Nat → Nat → DbState × List SentPdu × SessState
  | [], st, _, _ => (st, [], SessState.opened)
  | RecvEvent.pData vals :: rest, st, ctr, now =>
    let r := handle_pdata_list parse cfg vals st ctr now
    run_association parse cfg rest r.1 r.2 now
  | RecvEvent.releaseRQ :: _, st, _, _ =>
    (st, [SentPdu.releaseRP], SessState.closed)
  | RecvEvent.abortRQ :: _, st, _, _ => (st, [], SessState.closed)
  | RecvEvent.otherPdu :: rest, st, ctr, now =>
    run_association parse cfg rest st ctr now
  | RecvEvent.recvError :: _, st, _, _ => (st, [], SessState.closed)

/-! ## Helper lemmas -/

lemma char_eq_of_toNat_eq {c d : Char} (h : c.toNat = d.toNat) : c = d := by
  have hc := Char.ofNat_toNat c
  have hd := Char.ofNat_toNat d
  rw [h] at hc
  rw [← hc, hd]

lemma char_beq_eq_decide (c d : Char) :
    (c == d) = decide (c.toNat = d.toNat) := by
  by_cases h : c = d
  · subst h
    simp
  · have h1 : (c == d) = false := beq_eq_false_iff_ne.mpr h
    have h2 : c.toNat ≠ d.toNat := fun hn => h (char_eq_of_toNat_eq hn)
    simp [h1, h2]

/-- Below code point 128, the character class kept by `sanitize_filename`
coincides with the specification's `[A-Za-z0-9._-]`. -/
lemma keep_eq_ascii_of_lt (c : Char) (h : c.toNat < 128) :
    (rust_is_alphanumeric c || c == '-' || c == '_' || c == '.') =
      ascii_allowed c := by
  rw [char_beq_eq_decide c '-', char_beq_eq_decide c '_',
    char_beq_eq_decide c '.',
    show ('-').toNat = 45 from rfl, show ('_').toNat = 95 from rfl,
    show ('.').toNat = 46 from rfl]
  simp only [rust_is_alphanumeric, ascii_allowed]
  rw [Bool.eq_iff_iff]
  simp only [Bool.or_eq_true, decide_eq_true_eq]
  constructor
  · rintro (((hc | hc) | hc) | hc) <;> omega
  · intro hc
    omega

/-! ## C4: sanitization -/

/-- C4, counterexample: the claim says that for any input string the output
of `sanitize_filename` contains only characters in `[A-Za-z0-9._-]`.  The
source keeps every character Rust classifies as alphanumeric, which
includes non-ASCII letters: sanitizing `"é"` returns `"é"` unchanged, and
`'é'` is not in `[A-Za-z0-9._-]`. -/
theorem sanitize_filename_ascii_counterexample :
    sanitize_filename "é" = "é" ∧ ascii_allowed 'é' = false ∧
    ('é' ∈ ("é" : String).data) := by
  refine ⟨by decide, by decide, by decide⟩

/-- C4, amended: `sanitize_filename` is total and length-preserving; on
strings of ASCII characters its output contains only `[A-Za-z0-9._-]` and
every character outside that set is replaced with `'_'` (for non-ASCII
input, characters Rust classifies as alphanumeric are kept as well);
sanitizing the already-clean `"1.2.3.4.5"` returns it unchanged, and
`"test/file:name"` yields `"test_file_name"`. -/
theorem sanitize_filename_ascii_spec (s : String)
    (h : ∀ c ∈ s.data, c.toNat < 128) :
    (sanitize_filename s).data.length = s.data.length ∧
    (∀ c ∈ (sanitize_filename s).data, ascii_allowed c = true) ∧
    (sanitize_filename s).data =
      s.data.map (fun c => if ascii_allowed c then c else '_') ∧
    sanitize_filename "1.2.3.4.5" = "1.2.3.4.5" ∧
    sanitize_filename "test/file:name" = "test_file_name" := by
  have hmap : (sanitize_filename s).data =
      s.data.map (fun c => if ascii_allowed c then c else '_') := by
    show s.data.map _ = s.data.map _
    apply List.map_congr_left
    intro a ha
    rw [keep_eq_ascii_of_lt a (h a ha)]
  refine ⟨?_, ?_, hmap, by decide, by decide⟩
  · rw [hmap, List.length_map]
  · intro c hc
    rw [hmap] at hc
    rcases List.mem_map.mp hc with ⟨a, _, rfl⟩
    by_cases hk : ascii_allowed a = true
    · rw [if_pos hk]
      exact hk
    · rw [if_neg hk]
      decide

/-- Witness for `sanitize_filename_ascii_spec` at `"test/file:name"`. -/
theorem sanitize_filename_ascii_spec_witness :
    (∀ c ∈ ("test/file:name" : String).data, c.toNat < 128) ∧
    sanitize_filename "test/file:name" = "test_file_name" :=
  ⟨by decide, (sanitize_filename_ascii_spec "test/file:name" (by decide)).2.2.2.2⟩

/-! ## Storage path resolver: C5 and C6 -/

/-- `generate_file_path` decomposed into the base path, the optional
patient segment (guarded by the configuration flag), and the remaining
segments. -/
lemma generate_file_path_eq (cfg : StorageConfig) (obj : DicomObject)
    (mk : Bool) :
    generate_file_path cfg obj mk =
      if mk then
        some (cfg.base_path ::
          ((if cfg.organize_by_patient then patient_segs obj else []) ++
            post_patient_segs cfg obj))
      else none := by
  simp only [generate_file_path, patient_segs, post_patient_segs]
  rcases hob : cfg.organize_by_patient <;>
    rcases hosb : cfg.organize_by_study <;>
    cases hp : raw_element obj "PatientID" <;>
    cases hs : raw_element obj "StudyInstanceUID" <;>
    cases hse : raw_element obj "SeriesInstanceUID" <;>
    cases hso : raw_element obj "SOPInstanceUID" <;>
    cases mk <;>
    simp

/-- Every filename built as `<prefix> ++ ".dcm"` satisfies `ends_in_dcm`. -/
lemma ends_in_dcm_append (u : String) : ends_in_dcm (u ++ ".dcm") = true := by
  have hd : (u ++ (".dcm" : String)).data = u.data ++ ['.', 'd', 'c', 'm'] :=
    String.data_append u ".dcm"
  simp only [ends_in_dcm, hd, List.length_append]
  have hlen : u.data.length + (['.', 'd', 'c', 'm'] : List Char).length - 4 =
      u.data.length := by
    simp
  rw [hlen]
  have hdrop : (u.data ++ ['.', 'd', 'c', 'm']).drop u.data.length =
      ['.', 'd', 'c', 'm'] := List.drop_left u.data _
  rw [hdrop]
  simp

/-- C5, counterexample: the claim says the path returned by
`generate_file_path` ends, for every object, in a filename component equal
to the sanitized SOP instance UID plus `".dcm"`.  For an object with no
`SOPInstanceUID` element the source skips the filename push entirely: the
returned path's last component is the bare directory, which does not end in
`".dcm"` (whereas by `ends_in_dcm_append` every `<sanitized uid>.dcm`
filename does). -/
theorem generate_file_path_filename_counterexample :
    generate_file_path ⟨"storage", false, false⟩ ⟨[], [], "1.2"⟩ true =
      some ["storage"] ∧
    ends_in_dcm ((["storage"] : List String).getLastD "") = false := by
  refine ⟨by decide, by decide⟩

/-- C5, amended: for every object that carries an SOP instance UID element,
the resolved path's final component is the sanitized SOP instance UID with
the fixed `".dcm"` extension (an object without one gets a path with no
filename component); the resolver succeeds for every object whenever
directory creation succeeds — missing optional identifying fields never
make it fail — and fails exactly when directory creation fails. -/
theorem generate_file_path_filename_spec (cfg : StorageConfig)
    (obj : DicomObject) (u : String)
    (h : raw_element obj "SOPInstanceUID" = some u) :
    (∃ p, generate_file_path cfg obj true = some p ∧
      p.getLastD "" = sanitize_filename u ++ ".dcm") ∧
    (∀ o : DicomObject, (generate_file_path cfg o true).isSome = true ∧
      generate_file_path cfg o false = none) := by
  constructor
  · rw [generate_file_path_eq]
    simp only [if_pos]
    refine ⟨_, rfl, ?_⟩
    simp only [post_patient_segs, h]
    rw [show cfg.base_path ::
        ((if cfg.organize_by_patient then patient_segs obj else []) ++
          (((if cfg.organize_by_study then
              match raw_element obj "StudyInstanceUID" with
              | some su => [sanitize_filename su]
              | none => []
            else []) ++
            (match raw_element obj "SeriesInstanceUID" with
              | some se => [sanitize_filename se]
              | none => [])) ++
            [sanitize_filename u ++ ".dcm"])) =
        (cfg.base_path ::
          ((if cfg.organize_by_patient then patient_segs obj else []) ++
            ((if cfg.organize_by_study then
                match raw_element obj "StudyInstanceUID" with
                | some su => [sanitize_filename su]
                | none => []
              else []) ++
              (match raw_element obj "SeriesInstanceUID" with
                | some se => [sanitize_filename se]
                | none => [])))) ++
          [sanitize_filename u ++ ".dcm"] from by simp
      ]
    exact List.getLastD_concat _ _ _
  · intro o
    rw [generate_file_path_eq, generate_file_path_eq]
    simp

/-- Witness for `generate_file_path_filename_spec`. -/
theorem generate_file_path_filename_spec_witness :
    raw_element ⟨[("SOPInstanceUID", "1.2.3/4")], [], "1.2"⟩ "SOPInstanceUID" =
      some "1.2.3/4" ∧
    (∃ p, generate_file_path ⟨"base", true, true⟩
        ⟨[("SOPInstanceUID", "1.2.3/4")], [], "1.2"⟩ true = some p ∧
      p.getLastD "" = sanitize_filename "1.2.3/4" ++ ".dcm") :=
  ⟨by decide,
    (generate_file_path_filename_spec ⟨"base", true, true⟩
      ⟨[("SOPInstanceUID", "1.2.3/4")], [], "1.2"⟩ "1.2.3/4" (by decide)).1⟩

/-- C6: path resolution is deterministic (the resolver is a pure function
of the object, configuration and directory-creation outcome), and toggling
`organize_by_patient` off removes exactly the optional patient segment,
leaving the base path and all later segments identical. -/
theorem generate_file_path_toggle (cfg : StorageConfig) (obj : DicomObject)
    (mk : Bool) :
    generate_file_path cfg obj mk = generate_file_path cfg obj mk ∧
    generate_file_path { cfg with organize_by_patient := true } obj mk =
      (if mk then
        some (cfg.base_path :: (patient_segs obj ++ post_patient_segs cfg obj))
      else none) ∧
    generate_file_path { cfg with organize_by_patient := false } obj mk =
      (if mk then some (cfg.base_path :: post_patient_segs cfg obj)
      else none) := by
  refine ⟨rfl, ?_, ?_⟩ <;>
    rw [generate_file_path_eq] <;>
    simp [post_patient_segs]

/-! ## Metadata upsert engine: frame and counting lemmas -/

lemma goc_patient_studies (st : DbState) (c n : Nat) (pid pn : String)
    (bd sx : Option String) :
    (get_or_create_patient st c n pid pn bd sx).st.studies = st.studies := by
  rcases hf : st.patients.find? (fun r => r.patient_id == pid) with _ | r <;>
    simp [get_or_create_patient, hf]

lemma goc_patient_series (st : DbState) (c n : Nat) (pid pn : String)
    (bd sx : Option String) :
    (get_or_create_patient st c n pid pn bd sx).st.series = st.series := by
  rcases hf : st.patients.find? (fun r => r.patient_id == pid) with _ | r <;>
    simp [get_or_create_patient, hf]

lemma goc_patient_instances (st : DbState) (c n : Nat) (pid pn : String)
    (bd sx : Option String) :
    (get_or_create_patient st c n pid pn bd sx).st.instances = st.instances := by
  rcases hf : st.patients.find? (fun r => r.patient_id == pid) with _ | r <;>
    simp [get_or_create_patient, hf]

lemma goc_study_patients (st : DbState) (c n pu : Nat) (uid : String)
    (a b d e f g : Option String) :
    (get_or_create_study st c n pu uid a b d e f g).st.patients = st.patients := by
  rcases hf : st.studies.find? (fun r => r.study_instance_uid == uid) with _ | r <;>
    simp [get_or_create_study, hf]

lemma goc_study_series (st : DbState) (c n pu : Nat) (uid : String)
    (a b d e f g : Option String) :
    (get_or_create_study st c n pu uid a b d e f g).st.series = st.series := by
  rcases hf : st.studies.find? (fun r => r.study_instance_uid == uid) with _ | r <;>
    simp [get_or_create_study, hf]

lemma goc_study_instances (st : DbState) (c n pu : Nat) (uid : String)
    (a b d e f g : Option String) :
    (get_or_create_study st c n pu uid a b d e f g).st.instances = st.instances := by
  rcases hf : st.studies.find? (fun r => r.study_instance_uid == uid) with _ | r <;>
    simp [get_or_create_study, hf]

lemma goc_series_patients (st : DbState) (c n su : Nat) (uid : String)
    (sn : Option Int) (a b d : Option String) :
    (get_or_create_series st c n su uid sn a b d).st.patients = st.patients := by
  rcases hf : st.series.find? (fun r => r.series_instance_uid == uid) with _ | r <;>
    simp [get_or_create_series, hf]

lemma goc_series_studies (st : DbState) (c n su : Nat) (uid : String)
    (sn : Option Int) (a b d : Option String) :
    (get_or_create_series st c n su uid sn a b d).st.studies = st.studies := by
  rcases hf : st.series.find? (fun r => r.series_instance_uid == uid) with _ | r <;>
    simp [get_or_create_series, hf]

lemma goc_series_instances (st : DbState) (c n su : Nat) (uid : String)
    (sn : Option Int) (a b d : Option String) :
    (get_or_create_series st c n su uid sn a b d).st.instances = st.instances := by
  rcases hf : st.series.find? (fun r => r.series_instance_uid == uid) with _ | r <;>
    simp [get_or_create_series, hf]

lemma create_instance_patients (st : DbState) (c n si : Nat) (u sc : String)
    (inum : Option Int) (fp : String) (fs : Int) (te : String)
    (r1 r2 r3 : Option Int) :
    (create_instance st c n si u sc inum fp fs te r1 r2 r3).st.patients =
      st.patients := by
  rcases ha : st.instances.any (fun r => r.sop_instance_uid == u) with _ | _ <;>
    simp [create_instance, ha]

lemma create_instance_studies (st : DbState) (c n si : Nat) (u sc : String)
    (inum : Option Int) (fp : String) (fs : Int) (te : String)
    (r1 r2 r3 : Option Int) :
    (create_instance st c n si u sc inum fp fs te r1 r2 r3).st.studies =
      st.studies := by
  rcases ha : st.instances.any (fun r => r.sop_instance_uid == u) with _ | _ <;>
    simp [create_instance, ha]

lemma create_instance_series (st : DbState) (c n si : Nat) (u sc : String)
    (inum : Option Int) (fp : String) (fs : Int) (te : String)
    (r1 r2 r3 : Option Int) :
    (create_instance st c n si u sc inum fp fs te r1 r2 r3).st.series =
      st.series := by
  rcases ha : st.instances.any (fun r => r.sop_instance_uid == u) with _ | _ <;>
    simp [create_instance, ha]

lemma increment_patients (st : DbState) (si n : Nat) :
    (increment_series_instances st si n).patients = st.patients := rfl

lemma increment_studies (st : DbState) (si n : Nat) :
    (increment_series_instances st si n).studies = st.studies := rfl

lemma increment_instances (st : DbState) (si n : Nat) :
    (increment_series_instances st si n).instances = st.instances := rfl

/-- The series timestamp refresh does not change how many Series rows carry
a given natural key. -/
lemma series_count_increment (st : DbState) (si n : Nat) (uid : String) :
    series_count (increment_series_instances st si n) uid = series_count st uid := by
  simp only [series_count, increment_series_instances, List.countP_map]
  apply List.countP_congr
  intro r _
  by_cases hid : r.id = si <;> simp [hid]

/-- Get-or-create on the Patient table: starting from a store holding at
most one row with the given natural key, the operation leaves exactly
one. -/
lemma goc_patient_count (st : DbState) (c n : Nat) (pid pn : String)
    (bd sx : Option String) (h : patient_count st pid ≤ 1) :
    patient_count (get_or_create_patient st c n pid pn bd sx).st pid = 1 := by
  rcases hf : st.patients.find? (fun r => r.patient_id == pid) with _ | r
  · have h0 : st.patients.countP (fun r => r.patient_id == pid) = 0 := by
      rw [List.countP_eq_zero]
      exact fun a ha => List.find?_eq_none.mp hf a ha
    simp [get_or_create_patient, hf, patient_count, List.countP_append, h0]
  · have hmem := List.mem_of_find?_eq_some hf
    have hp := List.find?_some hf
    have h1 : 0 < st.patients.countP (fun r => r.patient_id == pid) :=
      List.countP_pos_iff.mpr ⟨r, hmem, hp⟩
    have h2 : patient_count (get_or_create_patient st c n pid pn bd sx).st pid =
        patient_count st pid := by
      simp [get_or_create_patient, hf]
    rw [h2]
    rw [patient_count] at h ⊢
    omega

lemma goc_study_count (st : DbState) (c n pu : Nat) (uid : String)
    (a b d e f g : Option String) (h : study_count st uid ≤ 1) :
    study_count (get_or_create_study st c n pu uid a b d e f g).st uid = 1 := by
  rcases hf : st.studies.find? (fun r => r.study_instance_uid == uid) with _ | r
  · have h0 : st.studies.countP (fun r => r.study_instance_uid == uid) = 0 := by
      rw [List.countP_eq_zero]
      exact fun x hx => List.find?_eq_none.mp hf x hx
    simp [get_or_create_study, hf, study_count, List.countP_append, h0]
  · have hmem := List.mem_of_find?_eq_some hf
    have hp := List.find?_some hf
    have h1 : 0 < st.studies.countP (fun r => r.study_instance_uid == uid) :=
      List.countP_pos_iff.mpr ⟨r, hmem, hp⟩
    have h2 : study_count (get_or_create_study st c n pu uid a b d e f g).st uid =
        study_count st uid := by
      simp [get_or_create_study, hf]
    rw [h2]
    rw [study_count] at h ⊢
    omega

lemma goc_series_count (st : DbState) (c n su : Nat) (uid : String)
    (sn : Option Int) (a b d : Option String) (h : series_count st uid ≤ 1) :
    series_count (get_or_create_series st c n su uid sn a b d).st uid = 1 := by
  rcases hf : st.series.find? (fun r => r.series_instance_uid == uid) with _ | r
  · have h0 : st.series.countP (fun r => r.series_instance_uid == uid) = 0 := by
      rw [List.countP_eq_zero]
      exact fun x hx => List.find?_eq_none.mp hf x hx
    simp [get_or_create_series, hf, series_count, List.countP_append, h0]
  · have hmem := List.mem_of_find?_eq_some hf
    have hp := List.find?_some hf
    have h1 : 0 < st.series.countP (fun r => r.series_instance_uid == uid) :=
      List.countP_pos_iff.mpr ⟨r, hmem, hp⟩
    have h2 : series_count (get_or_create_series st c n su uid sn a b d).st uid =
        series_count st uid := by
      simp [get_or_create_series, hf]
    rw [h2]
    rw [series_count] at h ⊢
    omega

/-- Conflict-as-no-op insert on the Instance table: starting from a store
holding at most one row with the given SOP instance UID, the operation
leaves exactly one. -/
lemma create_instance_count (st : DbState) (c n si : Nat) (u sc : String)
    (inum : Option Int) (fp : String) (fs : Int) (te : String)
    (r1 r2 r3 : Option Int) (h : instance_count st u ≤ 1) :
    instance_count (create_instance st c n si u sc inum fp fs te r1 r2 r3).st u = 1 := by
  rcases ha : st.instances.any (fun r => r.sop_instance_uid == u) with _ | _
  · have h0 : st.instances.countP (fun r => r.sop_instance_uid == u) = 0 := by
      rw [List.countP_eq_zero]
      intro x hx
      have := List.any_eq_false.mp ha x hx
      exact this
    simp [create_instance, ha, instance_count, List.countP_append, h0]
  · rcases List.any_eq_true.mp ha with ⟨r, hmem, hp⟩
    have h1 : 0 < st.instances.countP (fun r => r.sop_instance_uid == u) :=
      List.countP_pos_iff.mpr ⟨r, hmem, hp⟩
    have h2 : instance_count (create_instance st c n si u sc inum fp fs te r1 r2 r3).st u =
        instance_count st u := by
      simp [create_instance, ha]
    rw [h2]
    rw [instance_count] at h ⊢
    omega

/-! ## Extraction lemmas -/

lemma extract_meta_keys (obj : DicomObject) (ctr : Nat) (pid su se so : String)
    (hp : get_string_value obj "PatientID" = some pid)
    (hs : get_string_value obj "StudyInstanceUID" = some su)
    (hse : get_string_value obj "SeriesInstanceUID" = some se)
    (hso : get_string_value obj "SOPInstanceUID" = some so) :
    (extract_meta obj ctr).patient_id = pid ∧
    (extract_meta obj ctr).study_uid = su ∧
    (extract_meta obj ctr).series_uid = se ∧
    (extract_meta obj ctr).sop_uid = so ∧
    (extract_meta obj ctr).ctr = ctr := by
  simp [extract_meta, hp, hs, hse, hso]

lemma extract_meta_sop (obj : DicomObject) (ctr : Nat) (so : String)
    (hso : get_string_value obj "SOPInstanceUID" = some so) :
    (extract_meta obj ctr).sop_uid = so := by
  simp [extract_meta, hso]

/-! ## Effect of one `store_dicom_metadata` call on the key counts -/

lemma store_dicom_metadata_counts (st : DbState) (ctr now : Nat)
    (obj : DicomObject) (fp : String) (fs : Int) (pid su se so : String)
    (hp : get_string_value obj "PatientID" = some pid)
    (hs : get_string_value obj "StudyInstanceUID" = some su)
    (hse : get_string_value obj "SeriesInstanceUID" = some se)
    (hso : get_string_value obj "SOPInstanceUID" = some so)
    (h1 : patient_count st pid ≤ 1) (h2 : study_count st su ≤ 1)
    (h3 : series_count st se ≤ 1) (h4 : instance_count st so ≤ 1) :
    patient_count (store_dicom_metadata st ctr now obj fp fs).1 pid = 1 ∧
    study_count (store_dicom_metadata st ctr now obj fp fs).1 su = 1 ∧
    series_count (store_dicom_metadata st ctr now obj fp fs).1 se = 1 ∧
    instance_count (store_dicom_metadata st ctr now obj fp fs).1 so = 1 := by
  obtain ⟨e1, e2, e3, e4, e5⟩ := extract_meta_keys obj ctr pid su se so hp hs hse hso
  simp only [store_dicom_metadata, e1, e2, e3, e4, e5]
  refine ⟨?_, ?_, ?_, ?_⟩
  · simp only [patient_count, increment_patients, create_instance_patients,
      goc_series_patients, goc_study_patients]
    exact goc_patient_count st _ now pid _ _ _ h1
  · simp only [study_count, increment_studies, create_instance_studies,
      goc_series_studies]
    refine goc_study_count _ _ now _ su _ _ _ _ _ _ ?_
    simp only [study_count, goc_patient_studies]
    exact h2
  · rw [series_count_increment]
    simp only [series_count, create_instance_series]
    refine goc_series_count _ _ now _ se _ _ _ _ ?_
    simp only [series_count, goc_study_series, goc_patient_series]
    exact h3
  · simp only [instance_count, increment_instances]
    refine create_instance_count _ _ now _ so _ _ _ _ _ _ _ _ ?_
    simp only [instance_count, goc_series_instances, goc_study_instances,
      goc_patient_instances]
    exact h4

/-! ## C1: idempotent hierarchy creation -/

/-- C1: for an object with all four natural keys present, two sequential
calls of `store_dicom_metadata` (with arbitrary counters, timestamps, file
paths and sizes), starting from a store holding at most one row per key at
each level, leave exactly one Patient, one Study, one Series and one
Instance row for those natural keys. -/
theorem store_dicom_metadata_twice_unique (st : DbState)
    (ctr1 now1 ctr2 now2 : Nat) (obj : DicomObject) (fp1 fp2 : String)
    (fs1 fs2 : Int) (pid su se so : String)
    (hp : get_string_value obj "PatientID" = some pid)
    (hs : get_string_value obj "StudyInstanceUID" = some su)
    (hse : get_string_value obj "SeriesInstanceUID" = some se)
    (hso : get_string_value obj "SOPInstanceUID" = some so)
    (h1 : patient_count st pid ≤ 1) (h2 : study_count st su ≤ 1)
    (h3 : series_count st se ≤ 1) (h4 : instance_count st so ≤ 1) :
    patient_count (store_dicom_metadata
      (store_dicom_metadata st ctr1 now1 obj fp1 fs1).1
        ctr2 now2 obj fp2 fs2).1 pid = 1 ∧
    study_count (store_dicom_metadata
      (store_dicom_metadata st ctr1 now1 obj fp1 fs1).1
        ctr2 now2 obj fp2 fs2).1 su = 1 ∧
    series_count (store_dicom_metadata
      (store_dicom_metadata st ctr1 now1 obj fp1 fs1).1
        ctr2 now2 obj fp2 fs2).1 se = 1 ∧
    instance_count (store_dicom_metadata
      (store_dicom_metadata st ctr1 now1 obj fp1 fs1).1
        ctr2 now2 obj fp2 fs2).1 so = 1 := by
  obtain ⟨a1, a2, a3, a4⟩ :=
    store_dicom_metadata_counts st ctr1 now1 obj fp1 fs1 pid su se so
      hp hs hse hso h1 h2 h3 h4
  exact store_dicom_metadata_counts _ ctr2 now2 obj fp2 fs2 pid su se so
    hp hs hse hso (le_of_eq a1) (le_of_eq a2) (le_of_eq a3) (le_of_eq a4)

/-- Witness for `store_dicom_metadata_twice_unique`: a fully-specified
object stored twice into the empty store. -/
theorem store_dicom_metadata_twice_unique_witness :
    (get_string_value ⟨[("PatientID", "P1"), ("StudyInstanceUID", "S1"),
        ("SeriesInstanceUID", "SE1"), ("SOPInstanceUID", "I1")], [], "1.2"⟩
      "PatientID" = some "P1") ∧
    patient_count (store_dicom_metadata
      (store_dicom_metadata DbState.empty 0 10
        ⟨[("PatientID", "P1"), ("StudyInstanceUID", "S1"),
          ("SeriesInstanceUID", "SE1"), ("SOPInstanceUID", "I1")], [], "1.2"⟩
        "f" 7).1 100 20
      ⟨[("PatientID", "P1"), ("StudyInstanceUID", "S1"),
        ("SeriesInstanceUID", "SE1"), ("SOPInstanceUID", "I1")], [], "1.2"⟩
      "f" 7).1 "P1" = 1 :=
  ⟨by decide,
    (store_dicom_metadata_twice_unique DbState.empty 0 10 100 20
      ⟨[("PatientID", "P1"), ("StudyInstanceUID", "S1"),
        ("SeriesInstanceUID", "SE1"), ("SOPInstanceUID", "I1")], [], "1.2"⟩
      "f" "f" 7 7 "P1" "S1" "SE1" "I1"
      (by decide) (by decide) (by decide) (by decide)
      (by decide) (by decide) (by decide) (by decide)).1⟩

/-! ## C2: duplicate-instance suppression -/

lemma find?_append_of_all_false {α : Type} (p : α → Bool) (l1 l2 : List α)
    (h : ∀ x ∈ l1, p x = false) : (l1 ++ l2).find? p = l2.find? p := by
  induction l1 with
  | nil => rfl
  | cons a t ih =>
    have ha := h a (List.mem_cons_self a t)
    rw [List.cons_append, List.find?_cons, ha]
    exact ih fun x hx => h x (List.mem_cons_of_mem a hx)

lemma instance_any_false_of_count (st : DbState) (u : String)
    (h : instance_count st u = 0) :
    st.instances.any (fun r => r.sop_instance_uid == u) = false := by
  rw [List.any_eq_false]
  rw [instance_count, List.countP_eq_zero] at h
  exact h

lemma instance_any_true_of_count (st : DbState) (u : String)
    (h : 0 < instance_count st u) :
    st.instances.any (fun r => r.sop_instance_uid == u) = true := by
  rw [List.any_eq_true]
  rw [instance_count] at h
  exact List.countP_pos_iff.mp h

lemma instance_pred_false_of_count (st : DbState) (u : String)
    (h : instance_count st u = 0) :
    ∀ x ∈ st.instances, (x.sop_instance_uid == u) = false := by
  rw [instance_count, List.countP_eq_zero] at h
  intro x hx
  exact Bool.eq_false_iff.mpr (h x hx)

/-- A first arrival: when no Instance row with the object's SOP instance
UID exists, one call appends exactly one Instance row, and that row records
the supplied file path and file size. -/
lemma store_instance_first_values (st : DbState) (ctr now : Nat)
    (obj : DicomObject) (fp : String) (fs : Int) (so : String)
    (hso : get_string_value obj "SOPInstanceUID" = some so)
    (h0 : instance_count st so = 0) :
    ((store_dicom_metadata st ctr now obj fp fs).1.instances.find?
        (fun r => r.sop_instance_uid == so)).map
      (fun r => (r.dicom_file, r.file_size)) = some (fp, fs) := by
  have e4 := extract_meta_sop obj ctr so hso
  simp only [store_dicom_metadata, e4, increment_instances, create_instance]
  rw [goc_series_instances, goc_study_instances, goc_patient_instances,
    instance_any_false_of_count st so h0]
  simp only [Bool.false_eq_true, if_false]
  rw [find?_append_of_all_false _ _ _ (instance_pred_false_of_count st so h0)]
  simp

/-- One call of `store_dicom_metadata` leaves exactly one Instance row with
the object's SOP instance UID when none existed before. -/
lemma store_instance_count_new (st : DbState) (ctr now : Nat)
    (obj : DicomObject) (fp : String) (fs : Int) (so : String)
    (hso : get_string_value obj "SOPInstanceUID" = some so)
    (h0 : instance_count st so ≤ 1) :
    instance_count (store_dicom_metadata st ctr now obj fp fs).1 so = 1 := by
  have e4 := extract_meta_sop obj ctr so hso
  simp only [store_dicom_metadata, e4]
  simp only [instance_count, increment_instances]
  refine create_instance_count _ _ now _ so _ _ _ _ _ _ _ _ ?_
  simp only [instance_count, goc_series_instances, goc_study_instances,
    goc_patient_instances]
  exact h0

/-- A second arrival with an already-present SOP instance UID leaves the
Instance table of the store entirely unchanged. -/
lemma store_instances_noop (st : DbState) (ctr now : Nat)
    (obj : DicomObject) (fp : String) (fs : Int) (so : String)
    (hso : get_string_value obj "SOPInstanceUID" = some so)
    (h1 : 0 < instance_count st so) :
    (store_dicom_metadata st ctr now obj fp fs).1.instances = st.instances := by
  have e4 := extract_meta_sop obj ctr so hso
  simp only [store_dicom_metadata, e4, increment_instances, create_instance]
  rw [goc_series_instances, goc_study_instances, goc_patient_instances,
    instance_any_true_of_count st so h1]
  simp only [if_true]
  rw [goc_series_instances, goc_study_instances, goc_patient_instances]

/-- C2: two objects sharing one SOP instance UID, stored in sequence from a
state without that UID, produce exactly one Instance row; the second call
leaves the Instance table unchanged (a silent no-op, not an update), and
the surviving row retains the first call's file path and file size. -/
theorem duplicate_instance_retains_first (o1 o2 : DicomObject) (st : DbState)
    (c1 n1 c2 n2 : Nat) (fp1 fp2 : String) (fs1 fs2 : Int) (u : String)
    (h1 : get_string_value o1 "SOPInstanceUID" = some u)
    (h2 : get_string_value o2 "SOPInstanceUID" = some u)
    (h0 : instance_count st u = 0) :
    (store_dicom_metadata (store_dicom_metadata st c1 n1 o1 fp1 fs1).1
        c2 n2 o2 fp2 fs2).1.instances =
      (store_dicom_metadata st c1 n1 o1 fp1 fs1).1.instances ∧
    instance_count (store_dicom_metadata (store_dicom_metadata st c1 n1 o1 fp1 fs1).1
        c2 n2 o2 fp2 fs2).1 u = 1 ∧
    ((store_dicom_metadata (store_dicom_metadata st c1 n1 o1 fp1 fs1).1
          c2 n2 o2 fp2 fs2).1.instances.find?
        (fun r => r.sop_instance_uid == u)).map
      (fun r => (r.dicom_file, r.file_size)) = some (fp1, fs1) := by
  have cnt1 : instance_count (store_dicom_metadata st c1 n1 o1 fp1 fs1).1 u = 1 :=
    store_instance_count_new st c1 n1 o1 fp1 fs1 u h1 (by omega)
  have noop : (store_dicom_metadata (store_dicom_metadata st c1 n1 o1 fp1 fs1).1
      c2 n2 o2 fp2 fs2).1.instances =
      (store_dicom_metadata st c1 n1 o1 fp1 fs1).1.instances :=
    store_instances_noop _ c2 n2 o2 fp2 fs2 u h2 (by omega)
  refine ⟨noop, ?_, ?_⟩
  · rw [instance_count, noop]
    rw [instance_count] at cnt1
    exact cnt1
  · rw [noop]
    exact store_instance_first_values st c1 n1 o1 fp1 fs1 u h1 h0

/-- Witness for `duplicate_instance_retains_first`: two objects with the
same SOP instance UID but different descriptive fields. -/
theorem duplicate_instance_retains_first_witness :
    (get_string_value ⟨[("SOPInstanceUID", "I9"), ("PatientID", "A")], [], "1.2"⟩
      "SOPInstanceUID" = some "I9") ∧
    (get_string_value ⟨[("SOPInstanceUID", "I9"), ("PatientID", "B")], [], "1.2.1"⟩
      "SOPInstanceUID" = some "I9") ∧
    instance_count DbState.empty "I9" = 0 ∧
    ((store_dicom_metadata (store_dicom_metadata DbState.empty 0 1
          ⟨[("SOPInstanceUID", "I9"), ("PatientID", "A")], [], "1.2"⟩ "first" 11).1
        50 2 ⟨[("SOPInstanceUID", "I9"), ("PatientID", "B")], [], "1.2.1"⟩
        "second" 22).1.instances.find?
        (fun r => r.sop_instance_uid == "I9")).map
      (fun r => (r.dicom_file, r.file_size)) = some ("first", 11) :=
  ⟨by decide, by decide, by decide,
    (duplicate_instance_retains_first
      ⟨[("SOPInstanceUID", "I9"), ("PatientID", "A")], [], "1.2"⟩
      ⟨[("SOPInstanceUID", "I9"), ("PatientID", "B")], [], "1.2.1"⟩
      DbState.empty 0 1 50 2 "first" "second" 11 22 "I9"
      (by decide) (by decide) (by decide)).2.2⟩

/-! ## C8: storing an already-known object only refreshes the series timestamp -/

/-- C8: when the Patient, Study, Series and Instance rows for the object's
extracted keys all already exist, `store_dicom_metadata` changes the store
only by setting `updated_at := now` on the found Series row; the Patient,
Study and Instance tables are left entirely unchanged. -/
theorem store_existing_only_touches_series (st : DbState) (ctr now : Nat)
    (obj : DicomObject) (fp : String) (fs : Int)
    (pr : PatientRow) (sr : StudyRow) (ser : SeriesRow)
    (hp : st.patients.find?
      (fun r => r.patient_id == (extract_meta obj ctr).patient_id) = some pr)
    (hs : st.studies.find?
      (fun r => r.study_instance_uid == (extract_meta obj ctr).study_uid) = some sr)
    (hse : st.series.find?
      (fun r => r.series_instance_uid == (extract_meta obj ctr).series_uid) = some ser)
    (hin : st.instances.any
      (fun r => r.sop_instance_uid == (extract_meta obj ctr).sop_uid) = true) :
    (store_dicom_metadata st ctr now obj fp fs).1 =
      { st with series := st.series.map (fun r =>
          if r.id == ser.id then { r with updated_at := now } else r) } := by
  simp only [store_dicom_metadata, get_or_create_patient, get_or_create_study,
    get_or_create_series, create_instance, increment_series_instances,
    hp, hs, hse, hin, if_true]

/-- Witness for `store_existing_only_touches_series`: a store already
holding the object's full hierarchy. -/
theorem store_existing_only_touches_series_witness :
    (DbState.mk [⟨1, "P1", "N", none, none, 0, 0⟩]
        [⟨2, 1, "S1", none, none, none, none, none, none, 0, 0, "completed"⟩]
        [⟨3, 2, "SE1", none, none, none, none, 0, 0⟩]
        [⟨4, 3, "I1", "", none, "f", 7, "1.2", none, none, none, 0, 0⟩]).patients.find?
      (fun r => r.patient_id ==
        (extract_meta ⟨[("PatientID", "P1"), ("StudyInstanceUID", "S1"),
          ("SeriesInstanceUID", "SE1"), ("SOPInstanceUID", "I1")], [], "1.2"⟩
          0).patient_id) = some ⟨1, "P1", "N", none, none, 0, 0⟩ ∧
    (store_dicom_metadata
      (DbState.mk [⟨1, "P1", "N", none, none, 0, 0⟩]
        [⟨2, 1, "S1", none, none, none, none, none, none, 0, 0, "completed"⟩]
        [⟨3, 2, "SE1", none, none, none, none, 0, 0⟩]
        [⟨4, 3, "I1", "", none, "f", 7, "1.2", none, none, none, 0, 0⟩])
      0 99
      ⟨[("PatientID", "P1"), ("StudyInstanceUID", "S1"),
        ("SeriesInstanceUID", "SE1"), ("SOPInstanceUID", "I1")], [], "1.2"⟩
      "g" 3).1 =
    { DbState.mk [⟨1, "P1", "N", none, none, 0, 0⟩]
        [⟨2, 1, "S1", none, none, none, none, none, none, 0, 0, "completed"⟩]
        [⟨3, 2, "SE1", none, none, none, none, 0, 0⟩]
        [⟨4, 3, "I1", "", none, "f", 7, "1.2", none, none, none, 0, 0⟩] with
      series := (DbState.mk [⟨1, "P1", "N", none, none, 0, 0⟩]
        [⟨2, 1, "S1", none, none, none, none, none, none, 0, 0, "completed"⟩]
        [⟨3, 2, "SE1", none, none, none, none, 0, 0⟩]
        [⟨4, 3, "I1", "", none, "f", 7, "1.2", none, none, none, 0, 0⟩]).series.map
          (fun r => if r.id == (⟨3, 2, "SE1", none, none, none, none, 0, 0⟩ :
              SeriesRow).id then { r with updated_at := 99 } else r) } :=
  ⟨by decide,
    store_existing_only_touches_series _ 0 99
      ⟨[("PatientID", "P1"), ("StudyInstanceUID", "S1"),
        ("SeriesInstanceUID", "SE1"), ("SOPInstanceUID", "I1")], [], "1.2"⟩
      "g" 3 ⟨1, "P1", "N", none, none, 0, 0⟩
      ⟨2, 1, "S1", none, none, none, none, none, none, 0, 0, "completed"⟩
      ⟨3, 2, "SE1", none, none, none, none, 0, 0⟩
      (by decide) (by decide) (by decide) (by decide)⟩

/-! ## C3: missing-field fallback policy -/

lemma mem_goc_patient_patients (st : DbState) (c n : Nat) (pid pn : String)
    (bd sx : Option String) (r : PatientRow)
    (h : r ∈ (get_or_create_patient st c n pid pn bd sx).st.patients) :
    r ∈ st.patients ∨ r = ⟨c, pid, pn, bd, sx, n, n⟩ := by
  rcases hf : st.patients.find? (fun x => x.patient_id == pid) with _ | x
  · simp only [get_or_create_patient, hf] at h
    rcases List.mem_append.mp h with h | h
    · exact Or.inl h
    · exact Or.inr (List.mem_singleton.mp h)
  · simp only [get_or_create_patient, hf] at h
    exact Or.inl h

lemma mem_goc_study_studies (st : DbState) (c n pu : Nat) (uid : String)
    (a b d e f g : Option String) (r : StudyRow)
    (h : r ∈ (get_or_create_study st c n pu uid a b d e f g).st.studies) :
    r ∈ st.studies ∨ r = ⟨c, pu, uid, a, b, d, e, f, g, n, n, "completed"⟩ := by
  rcases hf : st.studies.find? (fun x => x.study_instance_uid == uid) with _ | x
  · simp only [get_or_create_study, hf] at h
    rcases List.mem_append.mp h with h | h
    · exact Or.inl h
    · exact Or.inr (List.mem_singleton.mp h)
  · simp only [get_or_create_study, hf] at h
    exact Or.inl h

lemma mem_goc_series_series (st : DbState) (c n su : Nat) (uid : String)
    (sn : Option Int) (a b d : Option String) (r : SeriesRow)
    (h : r ∈ (get_or_create_series st c n su uid sn a b d).st.series) :
    r ∈ st.series ∨ r = ⟨c, su, uid, sn, a, b, d, n, n⟩ := by
  rcases hf : st.series.find? (fun x => x.series_instance_uid == uid) with _ | x
  · simp only [get_or_create_series, hf] at h
    rcases List.mem_append.mp h with h | h
    · exact Or.inl h
    · exact Or.inr (List.mem_singleton.mp h)
  · simp only [get_or_create_series, hf] at h
    exact Or.inl h

lemma mem_increment_series (st : DbState) (si n : Nat) (r : SeriesRow)
    (h : r ∈ (increment_series_instances st si n).series) :
    ∃ r0 ∈ st.series, r.series_instance_uid = r0.series_instance_uid ∧
      r.body_part_examined = r0.body_part_examined := by
  simp only [increment_series_instances] at h
  rcases List.mem_map.mp h with ⟨r0, hr0, rfl⟩
  refine ⟨r0, hr0, ?_, ?_⟩ <;> by_cases hid : r0.id = si <;> simp [hid]

lemma extract_meta_missing (obj : DicomObject) (ctr : Nat)
    (hsu : get_string_value obj "StudyInstanceUID" = none)
    (hsse : get_string_value obj "SeriesInstanceUID" = none)
    (hsso : get_string_value obj "SOPInstanceUID" = none)
    (hpn : get_string_value obj "PatientName" = none)
    (hsc : get_string_value obj "SOPClassUID" = none) :
    (extract_meta obj ctr).study_uid = generate_uid ctr ∧
    (extract_meta obj ctr).series_uid = generate_uid (ctr + 1) ∧
    (extract_meta obj ctr).sop_uid = generate_uid (ctr + 2) ∧
    (extract_meta obj ctr).patient_name = "UNKNOWN" ∧
    (extract_meta obj ctr).sop_class = "" := by
  simp [extract_meta, hsu, hsse, hsso, hpn, hsc]

/-- C3, counterexample: the claim says every missing descriptive field
(naming the patient name among them) is stored as empty/absent.  The source
(database.rs:24) substitutes the placeholder string `"UNKNOWN"` for a
missing patient name: storing an object without a `PatientName` element
records a Patient row whose name is the non-empty fabricated value
`"UNKNOWN"`. -/
theorem missing_field_fallback_counterexample :
    (store_dicom_metadata DbState.empty 0 5
        ⟨[("PatientID", "P1")], [], "1.2"⟩ "f" 1).1.patients.map
      (fun r => r.patient_name) = ["UNKNOWN"] ∧
    ("UNKNOWN" : String) ≠ "" := by
  refine ⟨by decide, by decide⟩

/-- C3, amended: every missing natural key other than the patient id is
replaced by a freshly generated UID (consecutive seeds of the generator),
the missing SOP class UID becomes the empty string, and missing descriptive
fields other than the patient name are stored as absent (`none`) in the
inserted rows — but a missing patient name is stored as the literal
placeholder `"UNKNOWN"`, not as empty/absent. -/
theorem missing_field_fallback (obj : DicomObject) (st : DbState)
    (ctr now : Nat) (fp : String) (fs : Int)
    (hsu : get_string_value obj "StudyInstanceUID" = none)
    (hsse : get_string_value obj "SeriesInstanceUID" = none)
    (hsso : get_string_value obj "SOPInstanceUID" = none)
    (hpn : get_string_value obj "PatientName" = none)
    (hsc : get_string_value obj "SOPClassUID" = none)
    (hsd : get_string_value obj "StudyDescription" = none)
    (hbp : get_string_value obj "BodyPartExamined" = none) :
    (extract_meta obj ctr).study_uid = generate_uid ctr ∧
    (extract_meta obj ctr).series_uid = generate_uid (ctr + 1) ∧
    (extract_meta obj ctr).sop_uid = generate_uid (ctr + 2) ∧
    (extract_meta obj ctr).patient_name = "UNKNOWN" ∧
    (extract_meta obj ctr).sop_class = "" ∧
    (∀ r ∈ (store_dicom_metadata st ctr now obj fp fs).1.studies,
      r ∈ st.studies ∨
        (r.study_instance_uid = generate_uid ctr ∧ r.study_description = none)) ∧
    (∀ r ∈ (store_dicom_metadata st ctr now obj fp fs).1.series,
      (∃ r0 ∈ st.series, r.series_instance_uid = r0.series_instance_uid ∧
        r.body_part_examined = r0.body_part_examined) ∨
        (r.series_instance_uid = generate_uid (ctr + 1) ∧
          r.body_part_examined = none)) ∧
    (∀ r ∈ (store_dicom_metadata st ctr now obj fp fs).1.patients,
      r ∈ st.patients ∨ r.patient_name = "UNKNOWN") := by
  obtain ⟨m1, m2, m3, m4, m5⟩ := extract_meta_missing obj ctr hsu hsse hsso hpn hsc
  refine ⟨m1, m2, m3, m4, m5, ?_, ?_, ?_⟩
  · intro r hr
    simp only [store_dicom_metadata, increment_studies, create_instance_studies,
      goc_series_studies] at hr
    rcases mem_goc_study_studies _ _ _ _ _ _ _ _ _ _ _ r hr with h | h
    · rw [goc_patient_studies] at h
      exact Or.inl h
    · right
      rw [h]
      exact ⟨m1, by rw [hsd]⟩
  · intro r hr
    simp only [store_dicom_metadata] at hr
    rcases mem_increment_series _ _ _ r hr with ⟨r0, hr0, heq1, heq2⟩
    rw [create_instance_series] at hr0
    rcases mem_goc_series_series _ _ _ _ _ _ _ _ _ r0 hr0 with h | h
    · rw [goc_study_series, goc_patient_series] at h
      exact Or.inl ⟨r0, h, heq1, heq2⟩
    · right
      rw [heq1, heq2, h]
      exact ⟨m2, by rw [hbp]⟩
  · intro r hr
    simp only [store_dicom_metadata, increment_patients, create_instance_patients,
      goc_series_patients, goc_study_patients] at hr
    rcases mem_goc_patient_patients _ _ _ _ _ _ _ r hr with h | h
    · exact Or.inl h
    · right
      rw [h]
      exact m4

/-- Witness for `missing_field_fallback`: an object carrying only a patient
id, stored into the empty store. -/
theorem missing_field_fallback_witness :
    get_string_value ⟨[("PatientID", "P1")], [], "1.2"⟩ "StudyInstanceUID" =
      none ∧
    (extract_meta ⟨[("PatientID", "P1")], [], "1.2"⟩ 0).study_uid =
      generate_uid 0 :=
  ⟨by decide,
    (missing_field_fallback ⟨[("PatientID", "P1")], [], "1.2"⟩ DbState.empty
      0 5 "f" 1 (by decide) (by decide) (by decide) (by decide) (by decide)
      (by decide) (by decide)).1⟩

/-! ## C10: empty or whitespace-only fields are treated as absent -/

/-- C10: a field whose element is present but trims to the empty string is
discarded by `get_string_value` exactly like an absent element; in
particular a whitespace-only patient id becomes `"UNKNOWN"` and
whitespace-only study/series/SOP instance UIDs are replaced by freshly
generated UIDs. -/
theorem whitespace_field_treated_as_absent (obj : DicomObject) (ctr : Nat)
    (ps ss ses sos : String)
    (hp : obj.elements.lookup "PatientID" = some ps)
    (hps : rust_trim ps = "")
    (hs : obj.elements.lookup "StudyInstanceUID" = some ss)
    (hss : rust_trim ss = "")
    (hsse : obj.elements.lookup "SeriesInstanceUID" = some ses)
    (hses : rust_trim ses = "")
    (hsso : obj.elements.lookup "SOPInstanceUID" = some sos)
    (hsos : rust_trim sos = "") :
    (∀ tag v, obj.elements.lookup tag = some v → rust_trim v = "" →
      get_string_value obj tag = none) ∧
    get_string_value obj "PatientID" = none ∧
    (extract_meta obj ctr).patient_id = "UNKNOWN" ∧
    (extract_meta obj ctr).study_uid = generate_uid ctr ∧
    (extract_meta obj ctr).series_uid = generate_uid (ctr + 1) ∧
    (extract_meta obj ctr).sop_uid = generate_uid (ctr + 2) := by
  have gen : ∀ tag v, obj.elements.lookup tag = some v → rust_trim v = "" →
      get_string_value obj tag = none := by
    intro tag v hv htrim
    simp [get_string_value, hv, htrim]
  have g1 := gen _ _ hp hps
  have g2 := gen _ _ hs hss
  have g3 := gen _ _ hsse hses
  have g4 := gen _ _ hsso hsos
  refine ⟨gen, g1, ?_, ?_, ?_, ?_⟩ <;> simp [extract_meta, g1, g2, g3, g4]

/-- Witness for `whitespace_field_treated_as_absent`: whitespace-only and
empty values for all four identifying fields. -/
theorem whitespace_field_treated_as_absent_witness :
    (⟨[("PatientID", "  "), ("StudyInstanceUID", ""),
        ("SeriesInstanceUID", " "), ("SOPInstanceUID", "  ")], [], "1.2"⟩ :
      DicomObject).elements.lookup "PatientID" = some "  " ∧
    rust_trim "  " = "" ∧
    (extract_meta ⟨[("PatientID", "  "), ("StudyInstanceUID", ""),
        ("SeriesInstanceUID", " "), ("SOPInstanceUID", "  ")], [], "1.2"⟩
      7).patient_id = "UNKNOWN" :=
  ⟨by decide, by decide,
    (whitespace_field_treated_as_absent
      ⟨[("PatientID", "  "), ("StudyInstanceUID", ""),
        ("SeriesInstanceUID", " "), ("SOPInstanceUID", "  ")], [], "1.2"⟩
      7 "  " "" " " "  " (by decide) (by decide) (by decide) (by decide)
      (by decide) (by decide) (by decide) (by decide)).2.2.1⟩

/-! ## C7: a storage failure drops the object without touching the store -/

/-- C7: when the file store of a parsed object fails (directory creation or
file write), `handle_pdata` leaves the relational store and the counter
untouched — `store_dicom_metadata` is never reached — and the dispatch loop
goes on to process the subsequent messages of the session exactly as if the
failing message had not been there. -/
theorem storage_failure_drops_object (parse : List Nat → Option DicomObject)
    (cfg : StorageConfig) (v : PDataVal) (env : DataEnv) (st : DbState)
    (ctr now : Nat) (obj : DicomObject) (rest : List RecvEvent)
    (hv : v.value_type = ValType.data)
    (hparse : parse v.data = some obj)
    (hfail : store_dicom cfg obj env.mkdirOk env.writeOk = none) :
    handle_pdata parse cfg v env st ctr now = (st, ctr) ∧
    run_association parse cfg (RecvEvent.pData [(v, env)] :: rest) st ctr now =
      run_association parse cfg rest st ctr now := by
  have h1 : handle_pdata parse cfg v env st ctr now = (st, ctr) := by
    simp [handle_pdata, hv, hparse, hfail]
  refine ⟨h1, ?_⟩
  simp [run_association, handle_pdata_list, h1]

/-- Witness for `storage_failure_drops_object`: directory creation fails
for the only data message of the session. -/
theorem storage_failure_drops_object_witness :
    (PDataVal.mk ValType.data []).value_type = ValType.data ∧
    store_dicom ⟨"b", false, false⟩ ⟨[], [], "1.2"⟩ false true = none ∧
    handle_pdata (fun _ => some ⟨[], [], "1.2"⟩) ⟨"b", false, false⟩
      ⟨ValType.data, []⟩ ⟨false, true, 0⟩ DbState.empty 0 9 =
      (DbState.empty, 0) :=
  ⟨rfl, by decide,
    (storage_failure_drops_object (fun _ => some ⟨[], [], "1.2"⟩)
      ⟨"b", false, false⟩ ⟨ValType.data, []⟩ ⟨false, true, 0⟩ DbState.empty
      0 9 ⟨[], [], "1.2"⟩ [] rfl rfl (by decide)).1⟩

/-! ## C9: a release request closes the session -/

/-- C9: on a release request the dispatch loop replies with the release
acknowledgment and reaches the terminal `closed` state; whatever events
follow the release request in the stream are never processed — the run on
`releaseRQ :: rest` coincides with the run on `[releaseRQ]` alone. -/
theorem release_closes_session (parse : List Nat → Option DicomObject)
    (cfg : StorageConfig) (rest : List RecvEvent) (st : DbState)
    (ctr now : Nat) :
    run_association parse cfg (RecvEvent.releaseRQ :: rest) st ctr now =
      (st, [SentPdu.releaseRP], SessState.closed) ∧
    run_association parse cfg (RecvEvent.releaseRQ :: rest) st ctr now =
      run_association parse cfg [RecvEvent.releaseRQ] st ctr now :=
  ⟨rfl, rfl⟩

end DicomScp
